import Mathlib

/-!
Verification of the camera-overlay app (`src/App.tsx`): the chroma-key
(green-screen) processor, the compositing draw loop, the throttled
face-detection loop and the image-generation handler, shallowly embedded
from the React source.  Canvas pixel channels are bytes (`Nat`),
geometric coordinates and timestamps are `ℚ` (the JS doubles involved are
exact at the scales the code uses).
-/

namespace CameraOverlay

/-- An RGBA pixel of a canvas `ImageData` buffer; each channel is a byte
value `0..255`. -/
structure Pixel where
  r : Nat
  g : Nat
  b : Nat
  a : Nat
deriving Repr, DecidableEq

/-- The green-screen test of the pixel loop:
`g > 100 && g > r * 1.5 && g > b * 1.5`.  The `1.5` multiplications are
exact in the source (JS doubles represent `r * 1.5` exactly for byte
values), so they are carried out in `ℚ`. -/
def isGreenBackground (p : Pixel) : Prop :=
  100 < p.g ∧ (p.r : ℚ) * 1.5 < (p.g : ℚ) ∧ (p.b : ℚ) * 1.5 < (p.g : ℚ)

instance (p : Pixel) : Decidable (isGreenBackground p) :=
  decidable_of_iff (100 < p.g ∧ 3 * p.r < 2 * p.g ∧ 3 * p.b < 2 * p.g) (by
    have key : ∀ a b : Nat, 3 * a < 2 * b ↔ (a : ℚ) * 1.5 < (b : ℚ) := by
      intro a b
      constructor
      · intro h
        have hq : ((3 * a : ℕ) : ℚ) < ((2 * b : ℕ) : ℚ) := by exact_mod_cast h
        push_cast at hq
        linarith
      · intro h
        have hq : 3 * (a : ℚ) < 2 * (b : ℚ) := by linarith
        exact_mod_cast hq
    unfold isGreenBackground
    rw [key p.r p.g, key p.b p.g])

/-- Body of the pixel loop: a background pixel gets `data[i + 3] = 0`
(alpha cleared), every other pixel is left exactly as it is. -/
def processPixel (p : Pixel) : Pixel :=
  if isGreenBackground p then { p with a := 0 } else p

/-- The chroma-key pass over the whole bitmap
(`for (let i = 0; i < data.length; i += 4) ...`), viewed as a map over
the pixel list. -/
def chromaKey (img : List Pixel) : List Pixel :=
  img.map processPixel

/-- A MediaPipe bounding box: `originX`, `originY`, `width`, `height` in
video-pixel coordinates. -/
structure BBox where
  originX : ℚ
  originY : ℚ
  width : ℚ
  height : ℚ
deriving Repr, DecidableEq

/-- One face detection as the draw loop reads it; the code guards
`if (bbox)` so the box is modelled as optional. -/
structure Detection where
  boundingBox : Option BBox
deriving Repr, DecidableEq

/-- An axis-aligned rectangle, used for `drawImage` / `clearRect`
arguments. -/
structure Rect where
  x : ℚ
  y : ℚ
  w : ℚ
  h : ℚ
deriving Repr, DecidableEq

/-- The `drawImage` destination rectangle the draw loop computes for one
detection's bounding box (`scaleFactor = 2.0`, centered on the face). -/
def drawRectFor (bbox : BBox) : Rect :=
  let scaleFactor : ℚ := 2.0
  let scaledWidth := bbox.width * scaleFactor
  let scaledHeight := bbox.height * scaleFactor
  { x := bbox.originX - (scaledWidth - bbox.width) / 2
  , y := bbox.originY - (scaledHeight - bbox.height) / 2
  , w := scaledWidth
  , h := scaledHeight }

/-- The live `<video>` element's size fields read by the draw loop. -/
structure VideoState where
  videoWidth : Nat
  videoHeight : Nat
  offsetWidth : Nat
  offsetHeight : Nat
deriving Repr, DecidableEq

/-- The overlay canvas's pixel dimensions. -/
structure CanvasDims where
  width : Nat
  height : Nat
deriving Repr, DecidableEq

/-- Canvas resize step of the draw loop:
`if (canvas.width !== video.videoWidth || canvas.height !== video.videoHeight)`
then `canvas.width = video.videoWidth || video.offsetWidth` (and likewise
for the height); JS `||` falls through on `0`. -/
def resizeCanvas (c : CanvasDims) (v : VideoState) : CanvasDims :=
  if c.width ≠ v.videoWidth ∨ c.height ≠ v.videoHeight then
    { width := if v.videoWidth ≠ 0 then v.videoWidth else v.offsetWidth
    , height := if v.videoHeight ≠ 0 then v.videoHeight else v.offsetHeight }
  else c

/-- Everything one invocation of `drawLoop` does to the canvas: the
resulting canvas dimensions, the `clearRect` region, and the list of
`drawImage` destination rectangles in order. -/
structure FrameResult where
  canvas : CanvasDims
  clearedRect : Rect
  draws : List Rect
deriving Repr, DecidableEq

/-- One invocation of `drawLoop`: resize the canvas to the video, clear
it entirely, then — only when a processed bitmap is cached and at least
one detection is current — draw the bitmap once per detection that has a
bounding box. -/
def drawLoopFrame (c : CanvasDims) (v : VideoState)
    (processedCanvas : Option (List Pixel)) (currentDetections : List Detection) :
    FrameResult :=
  let c' := resizeCanvas c v
  let cleared : Rect := ⟨0, 0, (c'.width : ℚ), (c'.height : ℚ)⟩
  let draws : List Rect :=
    if processedCanvas.isSome ∧ 0 < currentDetections.length then
      currentDetections.filterMap (fun d => d.boundingBox.map drawRectFor)
    else []
  ⟨c', cleared, draws⟩

/-- State owned by the face-detection loop: `lastDetectionTimeRef` and
`faceDetectionsRef`. -/
structure DetectorState where
  lastDetectionTime : ℚ
  faceDetections : List Detection
deriving Repr, DecidableEq

/-- `DETECTION_INTERVAL = 33` milliseconds (roughly 30 Hz). -/
def DETECTION_INTERVAL : ℚ := 33

/-- Result of one `runDetection` invocation: the updated refs and whether
`detectForVideo` was called at all. -/
structure DetectOutcome where
  state : DetectorState
  detectorCalled : Bool
deriving Repr, DecidableEq

/-- One invocation of `runDetection`.  `ready` bundles the guard
(`faceDetectorRef && videoRef && isCameraReady && !useFallback`);
`videoHasEnoughData` is `video.readyState === video.HAVE_ENOUGH_DATA`;
`detectorOutput` is what `detectForVideo` returns (or throws).  The
detector runs only when `now - lastDetectionTime >= DETECTION_INTERVAL`;
the refs are updated only when it returns successfully. -/
def runDetection (st : DetectorState) (ready : Bool) (now : ℚ)
    (videoHasEnoughData : Bool) (detectorOutput : Except String (List Detection)) :
    DetectOutcome :=
  if ready = false then ⟨st, false⟩
  else if DETECTION_INTERVAL ≤ now - st.lastDetectionTime then
    if videoHasEnoughData then
      match detectorOutput with
      | Except.ok dets => ⟨⟨now, dets⟩, true⟩
      | Except.error _ => ⟨st, true⟩
    else ⟨st, false⟩
  else ⟨st, false⟩

/-- `data.data` of a generation response: the optional `outputs` URL list
and the optional `status` string (absent fields model a malformed
payload). -/
structure GenPayload where
  outputs : Option (List String)
  status : Option String
deriving Repr, DecidableEq

/-- An HTTP response from the generation endpoint: `response.ok` and the
parsed JSON `data.data`. -/
structure GenResponse where
  ok : Bool
  payload : Option GenPayload
deriving Repr, DecidableEq

/-- `generateSingleImage`: `none` models a rejected `fetch` (network
error); a non-2xx status, a missing/empty `outputs` list and a
server-reported `failed` status all throw. -/
def generateSingleImage (resp : Option GenResponse) : Except String String :=
  match resp with
  | none => Except.error "fetch rejected"
  | some r =>
    if r.ok = false then Except.error "API request failed"
    else
      match r.payload with
      | some d =>
        match d.outputs with
        | some (u :: _) => Except.ok u
        | _ =>
          if d.status = some "failed" then
            Except.error "Image generation failed on the server"
          else Except.error "No image URL in response"
      | none => Except.error "No image URL in response"

/-- `Promise.all` over the three parallel generation calls: succeeds with
all three URLs, or rejects with the first error. -/
def promiseAll3 (a b c : Except String String) : Except String (List String) :=
  match a, b, c with
  | Except.ok x, Except.ok y, Except.ok z => Except.ok [x, y, z]
  | Except.error e, _, _ => Except.error e
  | _, Except.error e, _ => Except.error e
  | _, _, Except.error e => Except.error e

/-- The whole `try` body of `handleGenerateImage` after the prompt guard:
a missing API key throws, otherwise the three parallel requests are
awaited. -/
def genResult (apiKey : Option String)
    (rs : Option GenResponse × Option GenResponse × Option GenResponse) :
    Except String (List String) :=
  match apiKey with
  | none => Except.error "VITE_WEAVER_AI_API_KEY is not set in environment variables"
  | some _ =>
    promiseAll3 (generateSingleImage rs.1) (generateSingleImage rs.2.1)
      (generateSingleImage rs.2.2)

/-- The component state `handleGenerateImage` touches. -/
structure AppState where
  generatedImages : List String
  selectedImageIndex : Nat
  isGenerating : Bool
deriving Repr, DecidableEq

/-- Observable trace of one `handleGenerateImage` call: how many fetches
were issued, how many `alert` notices were shown, the successive values
assigned to `generatedImages`, `selectedImageIndex` and `isGenerating`,
and the final state. -/
structure HandlerTrace where
  requests : Nat
  alerts : Nat
  imageSets : List (List String)
  indexSets : List Nat
  generatingSets : List Bool
  finalState : AppState
deriving Repr, DecidableEq

/-- The fixed local fallback overlay. -/
def placeholderImage : String := "/dummy-overlay.jpg"

/-- JS `String.prototype.trim`, modelled on the character list: strip
leading and trailing whitespace. -/
def jsTrim (s : String) : List Char :=
  ((s.data.dropWhile Char.isWhitespace).reverse.dropWhile Char.isWhitespace).reverse

/-- `const actualPrompt = customPrompt || prompt` — JS `||` falls through
on the empty string. -/
def effectivePrompt (customPrompt : Option String) (prompt : String) : String :=
  match customPrompt with
  | some s => if s = "" then prompt else s
  | none => prompt

/-- One call of `handleGenerateImage`: the empty-prompt guard returns
before any state change or request; otherwise the state is cleared
(`setGeneratedImages([])`, `setSelectedImageIndex(0)`,
`setIsGenerating(true)`), the three requests run, and either all three
URLs or three placeholder copies are stored, the index reset to `0`, one
alert shown on failure, and `isGenerating` cleared in `finally`. -/
def handleGenerateImage (s : AppState) (customPrompt : Option String)
    (prompt : String) (apiKey : Option String)
    (rs : Option GenResponse × Option GenResponse × Option GenResponse) :
    HandlerTrace :=
  let actualPrompt := effectivePrompt customPrompt prompt
  if (jsTrim actualPrompt).isEmpty then
    ⟨0, 0, [], [], [], s⟩
  else
    match genResult apiKey rs with
    | Except.ok urls =>
      { requests := if apiKey.isSome then 3 else 0
      , alerts := 0
      , imageSets := [[], urls]
      , indexSets := [0, 0]
      , generatingSets := [true, false]
      , finalState := ⟨urls, 0, false⟩ }
    | Except.error _ =>
      { requests := if apiKey.isSome then 3 else 0
      , alerts := 1
      , imageSets := [[], [placeholderImage, placeholderImage, placeholderImage]]
      , indexSets := [0, 0]
      , generatingSets := [true, false]
      , finalState := ⟨[placeholderImage, placeholderImage, placeholderImage], 0, false⟩ }

/-- Whether the overlay `<img>` decodes: `onload` delivers the decoded
bitmap, `onerror` fires otherwise. -/
inductive LoadOutcome where
  | success (img : List Pixel)
  | failure
deriving Repr, DecidableEq

/-- One run of the image-processing effect: no selected image clears
`processedCanvasRef`; a selected image that decodes replaces the ref with
its chroma-keyed bitmap; `onerror` only logs, leaving the ref as it
was. -/
def processImageEffect (processedCanvas : Option (List Pixel))
    (selectedImage : Option String) (outcome : LoadOutcome) :
    Option (List Pixel) :=
  match selectedImage with
  | none => none
  | some _ =>
    match outcome with
    | LoadOutcome.success img => some (chromaKey img)
    | LoadOutcome.failure => processedCanvas

end CameraOverlay

namespace CameraOverlay

/-- Helper: one application of the pixel rule is already a fixed point —
the green test only reads `r`, `g`, `b`, which the rule never changes. -/
theorem processPixel_idem (p : Pixel) :
    processPixel (processPixel p) = processPixel p := by
  by_cases h : isGreenBackground p
  · have h2 : isGreenBackground { p with a := 0 } := h
    simp [processPixel, h, h2]
  · simp [processPixel, h]

/-- Helper: with no processed bitmap or no detection, the draw loop
issues no `drawImage` call. -/
theorem drawLoopFrame_draws_nil (c : CanvasDims) (v : VideoState)
    (pc : Option (List Pixel)) (dets : List Detection)
    (h : pc = none ∨ dets = []) :
    (drawLoopFrame c v pc dets).draws = [] := by
  rcases h with h | h <;> subst h <;> simp [drawLoopFrame]

/-- Helper: when every detection carries a bounding box, the draw loop's
`filterMap` is the plain map of `drawRectFor` over those boxes. -/
theorem filterMap_draws_eq_map (dets : List Detection) (boxes : List BBox)
    (h : dets.map Detection.boundingBox = boxes.map some) :
    dets.filterMap (fun d => d.boundingBox.map drawRectFor) =
      boxes.map drawRectFor := by
  induction dets generalizing boxes with
  | nil =>
    cases boxes with
    | nil => rfl
    | cons b bs => simp at h
  | cons d ds ih =>
    cases boxes with
    | nil => simp at h
    | cons b bs =>
      simp only [List.map_cons, List.cons.injEq] at h
      simp [List.filterMap_cons, h.1, ih bs h.2]

/-- C1: the chroma-key processor classifies a pixel as background exactly
when `g > 100` and `g > 1.5 * r` and `g > 1.5 * b`; a background pixel
keeps its `r`, `g`, `b` and gets alpha `0`, and every other pixel comes
out exactly equal to the input pixel.  The output bitmap has the same
length as the input. -/
theorem chromaKey_pixel_rule (img : List Pixel) (i : Nat) (p : Pixel)
    (h : img[i]? = some p) :
    (chromaKey img).length = img.length ∧
    ∃ q : Pixel, (chromaKey img)[i]? = some q ∧
      ((100 < p.g ∧ (p.r : ℚ) * 1.5 < (p.g : ℚ) ∧ (p.b : ℚ) * 1.5 < (p.g : ℚ)) →
        q.r = p.r ∧ q.g = p.g ∧ q.b = p.b ∧ q.a = 0) ∧
      (¬(100 < p.g ∧ (p.r : ℚ) * 1.5 < (p.g : ℚ) ∧ (p.b : ℚ) * 1.5 < (p.g : ℚ)) →
        q = p) := by
  refine ⟨by simp [chromaKey], processPixel p, ?_, ?_, ?_⟩
  · simp [chromaKey, h]
  · intro hc
    have hg : isGreenBackground p := hc
    simp [processPixel, hg]
  · intro hc
    have hg : ¬ isGreenBackground p := hc
    simp [processPixel, hg]

/-- C1 witness: the pure-green pixel of the spec scenario is background
and loses its alpha; the pure-red one is untouched. -/
theorem chromaKey_pixel_rule_witness :
    (chromaKey [⟨0, 255, 0, 255⟩, ⟨255, 0, 0, 255⟩]).length = 2 ∧
    ∃ q : Pixel,
      (chromaKey [⟨0, 255, 0, 255⟩, ⟨255, 0, 0, 255⟩])[0]? = some q ∧
      ((100 < (255 : Nat) ∧ ((0 : Nat) : ℚ) * 1.5 < ((255 : Nat) : ℚ) ∧
          ((0 : Nat) : ℚ) * 1.5 < ((255 : Nat) : ℚ)) →
        q.r = 0 ∧ q.g = 255 ∧ q.b = 0 ∧ q.a = 0) ∧
      (¬(100 < (255 : Nat) ∧ ((0 : Nat) : ℚ) * 1.5 < ((255 : Nat) : ℚ) ∧
          ((0 : Nat) : ℚ) * 1.5 < ((255 : Nat) : ℚ)) →
        q = ⟨0, 255, 0, 255⟩) :=
  chromaKey_pixel_rule [⟨0, 255, 0, 255⟩, ⟨255, 0, 0, 255⟩] 0 ⟨0, 255, 0, 255⟩ rfl

/-- C3: the chroma-key pass is idempotent — processing an
already-processed bitmap changes no pixel. -/
theorem chromaKey_idempotent (img : List Pixel) :
    chromaKey (chromaKey img) = chromaKey img := by
  simp [chromaKey, List.map_map, Function.comp, processPixel_idem]

/-- C2: with a processed bitmap present and every current detection
carrying a bounding box, one draw loop invocation performs exactly one
`drawImage` per detection, each destination rectangle being `2.0×` the
detection's width and height and sharing the detection's center. -/
theorem drawLoop_scales_and_centers (c : CanvasDims) (v : VideoState)
    (pc : List Pixel) (dets : List Detection) (boxes : List BBox)
    (h : dets.map Detection.boundingBox = boxes.map some) :
    (drawLoopFrame c v (some pc) dets).draws.length = dets.length ∧
    ∀ i : Nat, ∀ bbox : BBox, boxes[i]? = some bbox →
      ∃ rect : Rect, (drawLoopFrame c v (some pc) dets).draws[i]? = some rect ∧
        rect.w = 2 * bbox.width ∧ rect.h = 2 * bbox.height ∧
        rect.x + rect.w / 2 = bbox.originX + bbox.width / 2 ∧
        rect.y + rect.h / 2 = bbox.originY + bbox.height / 2 := by
  have hlen : dets.length = boxes.length := by
    have := congrArg List.length h
    simpa using this
  have hdraws : (drawLoopFrame c v (some pc) dets).draws = boxes.map drawRectFor := by
    cases dets with
    | nil =>
      cases boxes with
      | nil => rfl
      | cons b bs => simp at hlen
    | cons d ds =>
      have hif : (drawLoopFrame c v (some pc) (d :: ds)).draws =
          (d :: ds).filterMap (fun x => x.boundingBox.map drawRectFor) := by
        simp [drawLoopFrame]
      rw [hif]
      exact filterMap_draws_eq_map _ _ h
  constructor
  · rw [hdraws, List.length_map, hlen]
  · intro i bbox hb
    refine ⟨drawRectFor bbox, ?_, ?_, ?_, ?_, ?_⟩
    · rw [hdraws, List.getElem?_map, hb, Option.map_some']
    · show bbox.width * 2.0 = 2 * bbox.width
      ring
    · show bbox.height * 2.0 = 2 * bbox.height
      ring
    · show bbox.originX - (bbox.width * 2.0 - bbox.width) / 2 + bbox.width * 2.0 / 2 =
        bbox.originX + bbox.width / 2
      ring
    · show bbox.originY - (bbox.height * 2.0 - bbox.height) / 2 + bbox.height * 2.0 / 2 =
        bbox.originY + bbox.height / 2
      ring

/-- C2 witness: a single detection with box `(10, 20, 30, 40)` yields one
draw of size `60 × 80` centered at `(25, 40)`. -/
theorem drawLoop_scales_and_centers_witness :
    ∃ rect : Rect,
      (drawLoopFrame ⟨640, 480⟩ ⟨640, 480, 640, 480⟩ (some [])
          [⟨some ⟨10, 20, 30, 40⟩⟩]).draws[0]? = some rect ∧
      rect.w = 2 * 30 ∧ rect.h = 2 * 40 ∧
      rect.x + rect.w / 2 = 10 + 30 / 2 ∧
      rect.y + rect.h / 2 = 20 + 40 / 2 :=
  (drawLoop_scales_and_centers ⟨640, 480⟩ ⟨640, 480, 640, 480⟩ []
      [⟨some ⟨10, 20, 30, 40⟩⟩] [⟨10, 20, 30, 40⟩] rfl).2 0 ⟨10, 20, 30, 40⟩ rfl

/-- C4: with zero current detections or no processed bitmap, an
invocation of the draw loop clears the whole (freshly resized) surface
and performs no draw operation; the invocation still returns a normal
frame result (no error, no retry). -/
theorem drawLoop_cleared_when_idle (c : CanvasDims) (v : VideoState)
    (pc : Option (List Pixel)) (dets : List Detection)
    (h : pc = none ∨ dets = []) :
    (drawLoopFrame c v pc dets).draws = [] ∧
    (drawLoopFrame c v pc dets).clearedRect =
      ⟨0, 0, ((drawLoopFrame c v pc dets).canvas.width : ℚ),
        ((drawLoopFrame c v pc dets).canvas.height : ℚ)⟩ :=
  ⟨drawLoopFrame_draws_nil c v pc dets h, rfl⟩

/-- C4 witness: no processed bitmap, one detection present — the frame
draws nothing and clears the full 640×480 surface. -/
theorem drawLoop_cleared_when_idle_witness :
    (drawLoopFrame ⟨640, 480⟩ ⟨640, 480, 640, 480⟩ none
        [⟨some ⟨10, 20, 30, 40⟩⟩]).draws = [] ∧
    (drawLoopFrame ⟨640, 480⟩ ⟨640, 480, 640, 480⟩ none
        [⟨some ⟨10, 20, 30, 40⟩⟩]).clearedRect =
      ⟨0, 0,
        ((drawLoopFrame ⟨640, 480⟩ ⟨640, 480, 640, 480⟩ none
            [⟨some ⟨10, 20, 30, 40⟩⟩]).canvas.width : ℚ),
        ((drawLoopFrame ⟨640, 480⟩ ⟨640, 480, 640, 480⟩ none
            [⟨some ⟨10, 20, 30, 40⟩⟩]).canvas.height : ℚ)⟩ :=
  drawLoop_cleared_when_idle ⟨640, 480⟩ ⟨640, 480, 640, 480⟩ none
    [⟨some ⟨10, 20, 30, 40⟩⟩] (Or.inl rfl)

/-- C5 counterexample: the canvas is 640×480 and the video's pixel
dimensions have changed — to 0×0 (with layout size 300×150).  The claim
says the surface is resized to the new video dimensions, but the code
falls back to the layout dimensions: the canvas becomes 300×150, not
0×0. -/
theorem drawLoop_resize_cex :
    ((⟨640, 480⟩ : CanvasDims).width ≠ (⟨0, 0, 300, 150⟩ : VideoState).videoWidth ∨
      (⟨640, 480⟩ : CanvasDims).height ≠ (⟨0, 0, 300, 150⟩ : VideoState).videoHeight) ∧
    (drawLoopFrame ⟨640, 480⟩ ⟨0, 0, 300, 150⟩ none []).canvas = ⟨300, 150⟩ ∧
    (⟨300, 150⟩ : CanvasDims) ≠
      ⟨(⟨0, 0, 300, 150⟩ : VideoState).videoWidth,
        (⟨0, 0, 300, 150⟩ : VideoState).videoHeight⟩ := by
  refine ⟨by decide, ?_, by decide⟩
  rfl

/-- C5 (amended): when the canvas dimensions differ from the video's and
both new video dimensions are nonzero, the next draw loop invocation
resizes the canvas to exactly the video dimensions; a zero video
dimension falls back to the element's layout dimension instead; when the
dimensions already agree, the canvas is left untouched. -/
theorem drawLoop_resize (c : CanvasDims) (v : VideoState)
    (pc : Option (List Pixel)) (dets : List Detection) :
    ((c.width = v.videoWidth ∧ c.height = v.videoHeight) →
      (drawLoopFrame c v pc dets).canvas = c) ∧
    (¬(c.width = v.videoWidth ∧ c.height = v.videoHeight) →
      v.videoWidth ≠ 0 → v.videoHeight ≠ 0 →
      (drawLoopFrame c v pc dets).canvas = ⟨v.videoWidth, v.videoHeight⟩) := by
  constructor
  · intro h
    have hn : ¬(c.width ≠ v.videoWidth ∨ c.height ≠ v.videoHeight) := by
      push_neg
      exact ⟨h.1, h.2⟩
    have hc : (drawLoopFrame c v pc dets).canvas = resizeCanvas c v := rfl
    rw [hc, resizeCanvas, if_neg hn]
  · intro h hw hh
    have hcond : c.width ≠ v.videoWidth ∨ c.height ≠ v.videoHeight := by
      by_contra hc
      push_neg at hc
      exact h ⟨hc.1, hc.2⟩
    have : (drawLoopFrame c v pc dets).canvas = resizeCanvas c v := rfl
    rw [this, resizeCanvas, if_pos hcond]
    simp [hw, hh]

/-- C5 witness: the spec scenario — video changes from 640×480 to
1280×720; the very next frame resizes the canvas to 1280×720. -/
theorem drawLoop_resize_witness :
    (drawLoopFrame ⟨640, 480⟩ ⟨1280, 720, 1280, 720⟩ none []).canvas = ⟨1280, 720⟩ :=
  (drawLoop_resize ⟨640, 480⟩ ⟨1280, 720, 1280, 720⟩ none []).2
    (by decide) (by decide) (by decide)

/-- Helper: `promiseAll3` succeeds only with exactly the three URLs. -/
theorem promiseAll3_ok_length (a b c : Except String String)
    (urls : List String) (h : promiseAll3 a b c = Except.ok urls) :
    urls.length = 3 := by
  cases a <;> cases b <;> cases c <;> simp [promiseAll3] at h
  subst h
  rfl

/-- Helper: `genResult` succeeds only with exactly three URLs. -/
theorem genResult_ok_length (apiKey : Option String)
    (rs : Option GenResponse × Option GenResponse × Option GenResponse)
    (urls : List String) (h : genResult apiKey rs = Except.ok urls) :
    urls.length = 3 := by
  cases apiKey with
  | none => simp [genResult] at h
  | some k => exact promiseAll3_ok_length _ _ _ urls h

/-- C6: whenever the generation pipeline fails in any way (network error,
non-2xx status, malformed payload, missing output URL, server-reported
failure, or a missing API key), `handleGenerateImage` catches the error,
shows exactly one alert, stores the local placeholder as all three images
so the selected overlay source is the placeholder, clears `isGenerating`,
and issues no request beyond the original three (no retry). -/
theorem handleGenerate_failure (s : AppState) (cp : Option String)
    (p : String) (key : Option String)
    (rs : Option GenResponse × Option GenResponse × Option GenResponse)
    (hp : (jsTrim (effectivePrompt cp p)).isEmpty = false)
    (hfail : ∃ e, genResult key rs = Except.error e) :
    (handleGenerateImage s cp p key rs).alerts = 1 ∧
    (handleGenerateImage s cp p key rs).finalState.generatedImages =
      [placeholderImage, placeholderImage, placeholderImage] ∧
    (handleGenerateImage s cp p key rs).finalState.selectedImageIndex = 0 ∧
    (handleGenerateImage s cp p key rs).finalState.generatedImages[
      (handleGenerateImage s cp p key rs).finalState.selectedImageIndex]? =
      some placeholderImage ∧
    (handleGenerateImage s cp p key rs).finalState.isGenerating = false ∧
    (handleGenerateImage s cp p key rs).requests ≤ 3 := by
  obtain ⟨e, he⟩ := hfail
  have hh : handleGenerateImage s cp p key rs =
      { requests := if key.isSome then 3 else 0
      , alerts := 1
      , imageSets := [[], [placeholderImage, placeholderImage, placeholderImage]]
      , indexSets := [0, 0]
      , generatingSets := [true, false]
      , finalState :=
          ⟨[placeholderImage, placeholderImage, placeholderImage], 0, false⟩ } := by
    simp [handleGenerateImage, hp, he]
  rw [hh]
  refine ⟨rfl, rfl, rfl, rfl, rfl, ?_⟩
  cases key <;> simp

/-- C6 witness: a non-2xx first response makes all three slots the
placeholder, with one alert and index 0. -/
theorem handleGenerate_failure_witness :
    (handleGenerateImage ⟨[], 0, false⟩ none "cat" (some "key")
        (some ⟨false, none⟩, none, none)).alerts = 1 ∧
    (handleGenerateImage ⟨[], 0, false⟩ none "cat" (some "key")
        (some ⟨false, none⟩, none, none)).finalState.generatedImages =
      [placeholderImage, placeholderImage, placeholderImage] ∧
    (handleGenerateImage ⟨[], 0, false⟩ none "cat" (some "key")
        (some ⟨false, none⟩, none, none)).finalState.selectedImageIndex = 0 ∧
    (handleGenerateImage ⟨[], 0, false⟩ none "cat" (some "key")
        (some ⟨false, none⟩, none, none)).finalState.generatedImages[
      (handleGenerateImage ⟨[], 0, false⟩ none "cat" (some "key")
          (some ⟨false, none⟩, none, none)).finalState.selectedImageIndex]? =
      some placeholderImage ∧
    (handleGenerateImage ⟨[], 0, false⟩ none "cat" (some "key")
        (some ⟨false, none⟩, none, none)).finalState.isGenerating = false ∧
    (handleGenerateImage ⟨[], 0, false⟩ none "cat" (some "key")
        (some ⟨false, none⟩, none, none)).requests ≤ 3 :=
  handleGenerate_failure ⟨[], 0, false⟩ none "cat" (some "key")
    (some ⟨false, none⟩, none, none) (by decide)
    ⟨"API request failed", rfl⟩

/-- C7: the face-detection step calls the detector only when at least
`DETECTION_INTERVAL` (33 ms, roughly 30 Hz) has elapsed since the last
completed detection; an invocation arriving sooner makes no detector
call and leaves the state — latest detections included — unchanged. -/
theorem detectFaces_throttle (st : DetectorState) (ready : Bool) (now : ℚ)
    (videoHasEnoughData : Bool) (out : Except String (List Detection)) :
    ((runDetection st ready now videoHasEnoughData out).detectorCalled = true →
      DETECTION_INTERVAL ≤ now - st.lastDetectionTime) ∧
    (now - st.lastDetectionTime < DETECTION_INTERVAL →
      (runDetection st ready now videoHasEnoughData out).detectorCalled = false ∧
      (runDetection st ready now videoHasEnoughData out).state = st) := by
  constructor
  · intro hc
    by_contra hlt
    push_neg at hlt
    have hne : ¬ DETECTION_INTERVAL ≤ now - st.lastDetectionTime :=
      not_le.mpr hlt
    cases ready <;> simp [runDetection, hne] at hc
  · intro hlt
    have hne : ¬ DETECTION_INTERVAL ≤ now - st.lastDetectionTime :=
      not_le.mpr hlt
    cases ready <;> simp [runDetection, hne]

/-- C7 witness: 10 ms after a detection at time 0, the step neither calls
the detector nor changes the state. -/
theorem detectFaces_throttle_witness :
    (runDetection ⟨0, []⟩ true 10 true (Except.ok [⟨none⟩])).detectorCalled = false ∧
    (runDetection ⟨0, []⟩ true 10 true (Except.ok [⟨none⟩])).state = ⟨0, []⟩ :=
  (detectFaces_throttle ⟨0, []⟩ true 10 true (Except.ok [⟨none⟩])).2
    (by norm_num [DETECTION_INTERVAL])

/-- C8 counterexample: an overlay decode failure while a previously
processed bitmap is cached does NOT leave the caller without a processed
bitmap — the old bitmap is retained (the `onerror` handler only logs),
so the compositing loop keeps drawing the stale overlay. -/
theorem overlayDecodeFailure_cex :
    processImageEffect (some [⟨1, 2, 3, 4⟩]) (some "https://img.example/a.png")
        LoadOutcome.failure = some [⟨1, 2, 3, 4⟩] ∧
    processImageEffect (some [⟨1, 2, 3, 4⟩]) (some "https://img.example/a.png")
        LoadOutcome.failure ≠ none ∧
    (drawLoopFrame ⟨640, 480⟩ ⟨640, 480, 640, 480⟩
        (processImageEffect (some [⟨1, 2, 3, 4⟩]) (some "https://img.example/a.png")
          LoadOutcome.failure)
        [⟨some ⟨10, 20, 30, 40⟩⟩]).draws.length = 1 := by
  refine ⟨rfl, by simp [processImageEffect], ?_⟩
  rfl

/-- C8 (amended): on a decode failure the chroma-key processor never runs
for that image and the cached processed bitmap is simply left unchanged;
in particular, when no processed bitmap existed, none is produced and the
compositing loop draws nothing until a new image successfully arrives —
but a previously processed bitmap is retained and continues to be
drawn. -/
theorem overlayDecodeFailure_amended (pc : Option (List Pixel)) (url : String)
    (c : CanvasDims) (v : VideoState) (dets : List Detection) :
    processImageEffect pc (some url) LoadOutcome.failure = pc ∧
    (pc = none →
      (drawLoopFrame c v (processImageEffect pc (some url) LoadOutcome.failure)
        dets).draws = []) := by
  refine ⟨rfl, ?_⟩
  intro h
  subst h
  exact drawLoopFrame_draws_nil c v _ dets (Or.inl rfl)

/-- C8 witness: with no prior bitmap, the failure leaves none and the
next frame draws nothing even with a detection present. -/
theorem overlayDecodeFailure_amended_witness :
    processImageEffect none (some "https://img.example/a.png")
        LoadOutcome.failure = none ∧
    (drawLoopFrame ⟨640, 480⟩ ⟨640, 480, 640, 480⟩
        (processImageEffect none (some "https://img.example/a.png")
          LoadOutcome.failure)
        [⟨some ⟨10, 20, 30, 40⟩⟩]).draws = [] :=
  ⟨(overlayDecodeFailure_amended none "https://img.example/a.png"
      ⟨640, 480⟩ ⟨640, 480, 640, 480⟩ [⟨some ⟨10, 20, 30, 40⟩⟩]).1,
    (overlayDecodeFailure_amended none "https://img.example/a.png"
      ⟨640, 480⟩ ⟨640, 480, 640, 480⟩ [⟨some ⟨10, 20, 30, 40⟩⟩]).2 rfl⟩

/-- C9: with an empty or whitespace-only effective prompt,
`handleGenerateImage` is a complete no-op — zero requests, zero alerts,
no assignment to any of the three state variables, and the state is
returned unchanged. -/
theorem handleGenerate_empty_prompt (s : AppState) (cp : Option String)
    (p : String) (key : Option String)
    (rs : Option GenResponse × Option GenResponse × Option GenResponse)
    (h : (jsTrim (effectivePrompt cp p)).isEmpty = true) :
    handleGenerateImage s cp p key rs = ⟨0, 0, [], [], [], s⟩ := by
  simp [handleGenerateImage, h]

/-- C9 witness: a whitespace-only prompt with a live key and responses
available still does nothing. -/
theorem handleGenerate_empty_prompt_witness :
    handleGenerateImage ⟨["old"], 2, false⟩ none "   " (some "key")
        (some ⟨true, some ⟨some ["u"], none⟩⟩, none, none) =
      ⟨0, 0, [], [], [], ⟨["old"], 2, false⟩⟩ :=
  handleGenerate_empty_prompt ⟨["old"], 2, false⟩ none "   " (some "key")
    (some ⟨true, some ⟨some ["u"], none⟩⟩, none, none) (by decide)

/-- C10: every value `handleGenerateImage` ever assigns to
`generatedImages` has length 0 or exactly 3 (never 1 or 2), every value
assigned to `selectedImageIndex` is 0, and whenever a generation ran at
all, the final list has exactly 3 entries with the index at 0 — on
failure no partial result is kept. -/
theorem generatedImages_invariant (s : AppState) (cp : Option String)
    (p : String) (key : Option String)
    (rs : Option GenResponse × Option GenResponse × Option GenResponse) :
    (∀ l ∈ (handleGenerateImage s cp p key rs).imageSets,
      l.length = 0 ∨ l.length = 3) ∧
    (∀ n ∈ (handleGenerateImage s cp p key rs).indexSets, n = 0) ∧
    ((handleGenerateImage s cp p key rs).imageSets ≠ [] →
      (handleGenerateImage s cp p key rs).finalState.generatedImages.length = 3 ∧
      (handleGenerateImage s cp p key rs).finalState.selectedImageIndex = 0) := by
  by_cases hg : (jsTrim (effectivePrompt cp p)).isEmpty
  · simp [handleGenerateImage, hg]
  · rw [Bool.not_eq_true] at hg
    cases hres : genResult key rs with
    | ok urls =>
      have h3 : urls.length = 3 := genResult_ok_length key rs urls hres
      simp [handleGenerateImage, hg, hres, h3, placeholderImage]
    | error e =>
      simp [handleGenerateImage, hg, hres, placeholderImage]

/-- C10 witness: a successful generation stores three URLs with the
index at 0. -/
theorem generatedImages_invariant_witness :
    (handleGenerateImage ⟨[], 0, false⟩ none "cat" (some "key")
        (some ⟨true, some ⟨some ["u1"], none⟩⟩,
          some ⟨true, some ⟨some ["u2"], none⟩⟩,
          some ⟨true, some ⟨some ["u3"], none⟩⟩)).finalState.generatedImages.length
      = 3 ∧
    (handleGenerateImage ⟨[], 0, false⟩ none "cat" (some "key")
        (some ⟨true, some ⟨some ["u1"], none⟩⟩,
          some ⟨true, some ⟨some ["u2"], none⟩⟩,
          some ⟨true, some ⟨some ["u3"], none⟩⟩)).finalState.selectedImageIndex
      = 0 :=
  (generatedImages_invariant ⟨[], 0, false⟩ none "cat" (some "key")
      (some ⟨true, some ⟨some ["u1"], none⟩⟩,
        some ⟨true, some ⟨some ["u2"], none⟩⟩,
        some ⟨true, some ⟨some ["u3"], none⟩⟩)).2.2 (by decide)

end CameraOverlay
